import Mathlib

/-!
Verification of the dualcam_esp32 Capture Synchronization Core against its
natural-language specification.  Definitions are shallow embeddings of the
C source (src/main/app_main.c, src/unnamed/part_002); machine `int64_t`
arithmetic is modelled with `Int` and C truncating division (`Int.tdiv`).
-/

namespace DualCam

/-- Outcome codes mirroring the `esp_err_t` values used by the capture code. -/
inductive EspErr where
  | ok
  | fail
  | timeout
  | invalidArg
  | invalidState
  | noMem
  deriving DecidableEq, Repr

/-- `capseq_sync_metrics_t` (app_main.c:1192-1195). -/
structure SyncMetrics where
  trip_time_us : Int
  cpu_disparity_us : Int
  deriving DecidableEq, Repr

/-- Default of `CONFIG_CAPSEQ_SYNC_SAFETY_MS` (app_main.c:1135). -/
def CONFIG_CAPSEQ_SYNC_SAFETY_MS : Int := 1000

/-- Safety overhead chosen in `run_capture_sequence` (app_main.c:2012-2014):
the request override when positive, else the configured default in µs. -/
def safety_overhead_us (cpu_time_to_start_us : Int) : Int :=
  if cpu_time_to_start_us > 0 then cpu_time_to_start_us
  else CONFIG_CAPSEQ_SYNC_SAFETY_MS * 1000

/-- `slave_start_delay_us` (app_main.c:2017): the delay sent to the slave is
exactly the safety overhead. -/
def slave_start_delay_us (safety : Int) : Int := safety

/-- `master_start_delay_us` (app_main.c:2018-2021): safety + trip + disparity,
clamped below at 0. -/
def master_start_delay_us (safety trip disp : Int) : Int :=
  let d := safety + trip + disp
  if d < 0 then 0 else d

/-! ## ClockProbe: `udp_sync_metrics` (app_main.c:1825-1875)

Each ping either fails (send error, receive timeout, or a reply that
`parse_int64_payload` rejects) or yields the master-side send/receive
timestamps together with the slave timestamp parsed from the reply. -/

/-- The observable outcome of one probe datagram. -/
inductive PingResult where
  | noReply
  | reply (send_time recv_time slave_time : Int)
  deriving DecidableEq, Repr

/-- Per-ping sample as computed in the loop body (app_main.c:1843-1863):
`rtt = recv - send`, `disparity = (send + rtt/2) - slave_ts`
(C truncating division). Returns `none` for a failed ping. -/
def pingSample : PingResult → Option (Int × Int)
  | .noReply => none
  | .reply send_time recv_time slave_time =>
      let rtt_us := recv_time - send_time
      let master_at_slave := send_time + Int.tdiv rtt_us 2
      some (rtt_us, master_at_slave - slave_time)

/-- One iteration of the accumulation loop: failed pings leave the
accumulator `(rtt_sum, disparity_sum, samples)` unchanged. -/
def syncFoldStep (acc : Int × Int × Int) (p : PingResult) : Int × Int × Int :=
  match pingSample p with
  | none => acc
  | some (rtt, disp) => (acc.1 + rtt, acc.2.1 + disp, acc.2.2 + 1)

/-- `udp_sync_metrics` after the socket is open: accumulate over the K pings;
if no sample succeeded return `ESP_FAIL` with the zero-initialized metrics,
else return the averaged metrics (app_main.c:1866-1875). -/
def udp_sync_metrics (pings : List PingResult) : EspErr × SyncMetrics :=
  let acc := pings.foldl syncFoldStep (0, 0, 0)
  if acc.2.2 = 0 then (EspErr.fail, ⟨0, 0⟩)
  else
    let avg_rtt := Int.tdiv acc.1 acc.2.2
    (EspErr.ok, ⟨Int.tdiv avg_rtt 2, Int.tdiv acc.2.1 acc.2.2⟩)

/-- The successful samples of a probe session, in order. -/
def successfulSamples (pings : List PingResult) : List (Int × Int) :=
  pings.filterMap pingSample

theorem syncFold_acc (pings : List PingResult) (r d n : Int) :
    pings.foldl syncFoldStep (r, d, n) =
      (r + ((successfulSamples pings).map Prod.fst).sum,
       d + ((successfulSamples pings).map Prod.snd).sum,
       n + (successfulSamples pings).length) := by
  induction pings generalizing r d n with
  | nil => simp [successfulSamples]
  | cons p rest ih =>
      cases hp : pingSample p with
      | none =>
          simp [successfulSamples, List.filterMap_cons, hp, List.foldl_cons,
            syncFoldStep, ih]
      | some s =>
          obtain ⟨rtt, disp⟩ := s
          simp only [successfulSamples, List.filterMap_cons, hp,
            List.foldl_cons, syncFoldStep, ih, List.map_cons, List.sum_cons,
            List.length_cons, Prod.mk.injEq]
          refine ⟨by ring, by ring, by push_cast; ring⟩

/-- C4 (confirmed): when zero probe datagrams yield a well-formed reply the
probe returns an error with both metric fields 0; otherwise the trip time is
half of the mean round trip (`recv - send` on the master) and the disparity
is the mean of the per-sample values `(send + rtt/2) - slave_ts`, over the
successful samples. -/
theorem udp_sync_metrics_correct (pings : List PingResult) :
    (successfulSamples pings = [] →
       udp_sync_metrics pings = (EspErr.fail, ⟨0, 0⟩)) ∧
    (successfulSamples pings ≠ [] →
       udp_sync_metrics pings =
         (EspErr.ok,
          ⟨Int.tdiv
             (Int.tdiv ((successfulSamples pings).map Prod.fst).sum
               ((successfulSamples pings).length : Int)) 2,
           Int.tdiv ((successfulSamples pings).map Prod.snd).sum
             ((successfulSamples pings).length : Int)⟩)) := by
  constructor
  · intro h
    unfold udp_sync_metrics
    rw [syncFold_acc]
    simp [h]
  · intro h
    have hlen : (successfulSamples pings).length ≠ 0 :=
      fun hh => h (List.eq_nil_of_length_eq_zero hh)
    have hlen' : ((successfulSamples pings).length : Int) ≠ 0 := by
      exact_mod_cast hlen
    unfold udp_sync_metrics
    rw [syncFold_acc]
    simp [hlen']

/-- Witness for C4 at a concrete probe session with one failed and two
successful pings. -/
theorem udp_sync_metrics_correct_witness :
    udp_sync_metrics
        [PingResult.noReply, PingResult.reply 0 4000 12000,
         PingResult.reply 100 4300 12200] =
      (EspErr.ok, ⟨2050, (-10000 : Int)⟩) := by
  have h := (udp_sync_metrics_correct
    [PingResult.noReply, PingResult.reply 0 4000 12000,
     PingResult.reply 100 4300 12200]).2 (by decide)
  rw [h]
  decide

/-- C1 counterexample: with safety `S = 1000`, probe metrics
`trip = 0`, `disp = -5000`, the clamp in `master_start_delay_us` fires
(`S + trip + disp = -4000 < 0`), so the delay identity
`master_delay - slave_delay = trip + disp` fails. -/
theorem delay_identity_counterexample :
    ¬ (master_start_delay_us 1000 0 (-5000) - slave_start_delay_us 1000 =
        0 + (-5000)) := by decide

/-- C1 (amended): the safety overhead is the positive request override, else
the configured default; the slave delay is exactly the safety overhead; the
master delay is `max 0 (S + trip + disp)`; and whenever the clamp does not
fire (`0 ≤ S + trip + disp`) the identity
`master_delay - slave_delay = trip + disp` holds exactly. -/
theorem capture_delays_correct (override trip disp : Int) :
    (0 < override → safety_overhead_us override = override) ∧
    (override ≤ 0 →
      safety_overhead_us override = CONFIG_CAPSEQ_SYNC_SAFETY_MS * 1000) ∧
    slave_start_delay_us (safety_overhead_us override) =
      safety_overhead_us override ∧
    master_start_delay_us (safety_overhead_us override) trip disp =
      max 0 (safety_overhead_us override + trip + disp) ∧
    (0 ≤ safety_overhead_us override + trip + disp →
      master_start_delay_us (safety_overhead_us override) trip disp -
        slave_start_delay_us (safety_overhead_us override) = trip + disp) := by
  refine ⟨fun h => by simp [safety_overhead_us, h], fun h => ?_, rfl, ?_, ?_⟩
  · have : ¬ override > 0 := by omega
    simp [safety_overhead_us, this]
  · unfold master_start_delay_us
    rcases le_or_lt 0 (safety_overhead_us override + trip + disp) with h | h
    · rw [if_neg (by omega), max_eq_right h]
    · rw [if_pos h, max_eq_left (by omega)]
  · intro h
    unfold master_start_delay_us slave_start_delay_us
    rw [if_neg (by omega)]
    ring

/-- Witness for C1's amended theorem at the spec's S1 scenario numbers:
`S = 50000`, `trip = 2000`, `disp = -8000`. -/
theorem capture_delays_correct_witness :
    master_start_delay_us (safety_overhead_us 50000) 2000 (-8000) -
      slave_start_delay_us (safety_overhead_us 50000) = 2000 + (-8000) :=
  (capture_delays_correct 50000 2000 (-8000)).2.2.2.2 (by decide)

/-! ## The master capture sequence: `run_capture_sequence`
(app_main.c:1950-2097)

The sequence is modelled as a function of the request parameters and an
environment recording the outcome of each externally-visible step
(camera init, slave READY poll, clock probe, START dispatch, the N frame
pulls, and the restore init). -/

/-- Pixel formats recognised by `parse_pixformat`; `other` covers numeric
codes outside the named set. -/
inductive PixFormat where
  | jpeg
  | rgb565
  | grayscale
  | yuv422
  | other (code : Int)
  deriving DecidableEq, Repr

/-- Frame sizes recognised by `parse_framesize`. -/
inductive FrameSize where
  | qqvga
  | qvga
  | vga
  | svga
  | xga
  | sxga
  | uxga
  | other (code : Int)
  deriving DecidableEq, Repr

/-- The camera pipeline state: uninitialized (after `esp_camera_deinit`) or
initialized with a frame size and pixel format. -/
inductive CameraState where
  | uninitialized
  | initialized (fs : FrameSize) (fmt : PixFormat)
  deriving DecidableEq, Repr

/-- `DEFAULT_FRAME_SIZE` of the master variant (app_main.c:1102). -/
def DEFAULT_FRAME_SIZE : FrameSize := .vga

/-- `DEFAULT_PIXEL_FORMAT` (app_main.c:1103). -/
def DEFAULT_PIXEL_FORMAT : PixFormat := .jpeg

/-- The streaming-default camera state `init_camera` restores. -/
def streamingDefault : CameraState :=
  .initialized DEFAULT_FRAME_SIZE DEFAULT_PIXEL_FORMAT

/-- Extension table of the record loop (app_main.c:2060-2065); the
initializer of `ext` is the literal `"session"`. -/
def frame_ext (fmt : PixFormat) : String :=
  match fmt with
  | .jpeg => "jpg"
  | .rgb565 => "rgb565"
  | .grayscale => "gray"
  | .yuv422 => "yuv"
  | .other _ => "session"

/-- `CAPTURE_DIR` (app_main.c:1105). -/
def CAPTURE_DIR : String := "/eMMC/capture"

/-- Artifact path `<dir>/<session>-<ts>.<ext>` (app_main.c:2066). -/
def artifact_path (session : String) (ts : Int) (fmt : PixFormat) : String :=
  CAPTURE_DIR ++ "/" ++ session ++ "-" ++ toString ts ++ "." ++ frame_ext fmt

/-- Environment of one record-loop iteration: whether
`esp_camera_fb_get` returned a frame, its timestamp, and whether `fopen`
succeeded. -/
structure FramePull where
  ok : Bool
  timestamp_ms : Int
  fopen_ok : Bool
  deriving DecidableEq, Repr

/-- One iteration of the record loop (app_main.c:2050-2081): a failed pull
or a failed `fopen` persists nothing (`continue`), a successful one
persists the artifact path. -/
def record_frame (session : String) (fmt : PixFormat) (p : FramePull) :
    Option String :=
  if !p.ok then none
  else if !p.fopen_ok then none
  else some (artifact_path session p.timestamp_ms fmt)

/-- The record loop over the `frame_count` pull outcomes, returning the
persisted artifact paths in order. The loop body has no abort path: every
iteration runs regardless of earlier failures. -/
def record_loop (session : String) (fmt : PixFormat) :
    List FramePull → List String
  | [] => []
  | p :: rest =>
      match record_frame session fmt p with
      | none => record_loop session fmt rest
      | some path => path :: record_loop session fmt rest

/-- Environment of one run of `run_capture_sequence`: outcomes of the
camera init, the slave gates, the frame pulls and the restore init. -/
structure CaptureEnv where
  init_ok : Bool
  ready_ok : Bool
  sync_ok : Bool
  metrics : SyncMetrics
  start_ok : Bool
  restore_init_ok : Bool
  pulls : List FramePull
  deriving Repr

/-- Result of one run: the returned `esp_err_t`, the diagnostic written to
`req->err_msg`, the persisted artifacts, the final camera state, and
whether the restore block at the end of the function executed. -/
structure CaptureResult where
  err : EspErr
  err_msg : String
  artifacts : List String
  camera : CameraState
  did_restore : Bool
  deriving Repr

/-- `run_capture_sequence` (app_main.c:1950-2097). Control flow of the C
function: camera deinit + reinit to the requested format (early return
`"camera init failed"`); READY poll, clock probe and START dispatch, each
failing the request when `CAPSEQ_SLAVE_MISSING_OK` is unset (early returns
`"slave not ready"`, `"udp sync failed"`, `"slave start failed"`); then the
record loop and the unconditional restore reinit, returning `ESP_OK`. -/
def run_capture_sequence (allow_missing : Bool) (session : String)
    (fs : FrameSize) (fmt : PixFormat) (env : CaptureEnv) : CaptureResult :=
  if !env.init_ok then
    ⟨.fail, "camera init failed", [], .uninitialized, false⟩
  else if !env.ready_ok && !allow_missing then
    ⟨.fail, "slave not ready", [], .initialized fs fmt, false⟩
  else if env.ready_ok && !env.sync_ok && !allow_missing then
    ⟨.fail, "udp sync failed", [], .initialized fs fmt, false⟩
  else if env.ready_ok && env.sync_ok && !env.start_ok && !allow_missing then
    ⟨.fail, "slave start failed", [], .initialized fs fmt, false⟩
  else
    let artifacts := record_loop session fmt env.pulls
    let cam := if env.restore_init_ok then streamingDefault
               else CameraState.uninitialized
    ⟨.ok, "", artifacts, cam, true⟩

/-- The condition under which the C control flow reaches the record loop
(and hence the restore block): camera init succeeded and either the
slave-missing policy allows falling through or all three slave gates
passed. -/
def reaches_record (allow_missing : Bool) (env : CaptureEnv) : Bool :=
  env.init_ok &&
    (allow_missing || (env.ready_ok && env.sync_ok && env.start_ok))

/-- C6 counterexample: a run in which the slave READY poll fails under the
default `allow_missing = false` policy ends the sequence with no restore
and with the camera still in the requested capture format, not the
streaming default. -/
theorem restore_skipped_counterexample :
    (run_capture_sequence false "s" .qvga .rgb565
        ⟨true, false, true, ⟨0, 0⟩, true, true, []⟩).did_restore = false ∧
    (run_capture_sequence false "s" .qvga .rgb565
        ⟨true, false, true, ⟨0, 0⟩, true, true, []⟩).camera ≠
      streamingDefault ∧
    (run_capture_sequence false "s" .qvga .rgb565
        ⟨true, false, true, ⟨0, 0⟩, true, true, []⟩).err = EspErr.fail := by
  decide

theorem capture_seq_paths (allow_missing : Bool) (session : String)
    (fs : FrameSize) (fmt : PixFormat) (env : CaptureEnv) :
    (run_capture_sequence allow_missing session fs fmt env).did_restore =
      reaches_record allow_missing env ∧
    ((run_capture_sequence allow_missing session fs fmt env).err =
        EspErr.ok ↔ reaches_record allow_missing env = true) ∧
    (reaches_record allow_missing env = true →
      env.restore_init_ok = true →
      (run_capture_sequence allow_missing session fs fmt env).camera =
        streamingDefault) := by
  obtain ⟨i, r, sy, m, st, ri, pulls⟩ := env
  cases i <;> cases r <;> cases sy <;> cases st <;> cases ri <;>
    cases allow_missing <;>
    simp [run_capture_sequence, reaches_record]

/-- C6 (amended): the restore reinit executes exactly on the runs that
reach the record phase; such runs return `ESP_OK` and, when the restore
init succeeds, leave the camera in the streaming default (JPEG at the
default size). Early-failure paths (camera init failed, slave not ready,
udp sync failed, slave start failed) end without the restore. -/
theorem restore_on_record_paths (allow_missing : Bool) (session : String)
    (fs : FrameSize) (fmt : PixFormat) (env : CaptureEnv) :
    (run_capture_sequence allow_missing session fs fmt env).did_restore =
      reaches_record allow_missing env ∧
    ((run_capture_sequence allow_missing session fs fmt env).err =
        EspErr.ok ↔ reaches_record allow_missing env = true) ∧
    (reaches_record allow_missing env = true →
      env.restore_init_ok = true →
      (run_capture_sequence allow_missing session fs fmt env).camera =
        streamingDefault) :=
  capture_seq_paths allow_missing session fs fmt env

/-- Witness for C6's amended theorem: a fully successful run restores the
camera to the streaming default. -/
theorem restore_on_record_paths_witness :
    (run_capture_sequence false "s" .qvga .rgb565
        ⟨true, true, true, ⟨0, 0⟩, true, true, []⟩).camera =
      streamingDefault :=
  (restore_on_record_paths false "s" .qvga .rgb565
      ⟨true, true, true, ⟨0, 0⟩, true, true, []⟩).2.2 (by decide) rfl

/-- C7 counterexample: a run whose single requested frame pull fails
persists zero artifacts yet `run_capture_sequence` still returns `ESP_OK`,
so the record phase does not report failure when zero of the N frames
succeed. -/
theorem record_zero_frames_counterexample :
    (run_capture_sequence false "s" .vga .jpeg
        ⟨true, true, true, ⟨0, 0⟩, true, true,
          [⟨false, 0, false⟩]⟩).artifacts = [] ∧
    (run_capture_sequence false "s" .vga .jpeg
        ⟨true, true, true, ⟨0, 0⟩, true, true,
          [⟨false, 0, false⟩]⟩).err = EspErr.ok := by
  decide

/-- C7 (amended): a failed pull is skipped and the remaining frames are
still attempted (the record loop on a failed head equals the loop on the
tail), and once the sequence reaches the record phase it returns `ESP_OK`
regardless of how many of the N frames succeed: the record phase never
causes the sequence to report failure. -/
theorem record_skips_failures_never_aborts (session : String)
    (fmt : PixFormat) (p : FramePull) (rest : List FramePull)
    (allow_missing : Bool) (fs : FrameSize) (env : CaptureEnv) :
    (p.ok = false →
      record_loop session fmt (p :: rest) = record_loop session fmt rest) ∧
    (reaches_record allow_missing env = true →
      (run_capture_sequence allow_missing session fs fmt env).err =
        EspErr.ok) := by
  constructor
  · intro hp
    simp [record_loop, record_frame, hp]
  · intro h
    exact (capture_seq_paths allow_missing session fs fmt env).2.1.mpr h

/-- Witness for C7's amended theorem: a run with one failed and one
successful pull skips the failure, persists the second frame, and returns
`ESP_OK`. -/
theorem record_skips_failures_never_aborts_witness :
    record_loop "s" .jpeg [⟨false, 0, false⟩, ⟨true, 7, true⟩] =
      record_loop "s" .jpeg [⟨true, 7, true⟩] ∧
    (run_capture_sequence false "s" .vga .jpeg
        ⟨true, true, true, ⟨0, 0⟩, true, true,
          [⟨false, 0, false⟩, ⟨true, 7, true⟩]⟩).err = EspErr.ok := by
  have h := record_skips_failures_never_aborts "s" PixFormat.jpeg
    ⟨false, 0, false⟩ [⟨true, 7, true⟩] false FrameSize.vga
    ⟨true, true, true, ⟨0, 0⟩, true, true,
      [⟨false, 0, false⟩, ⟨true, 7, true⟩]⟩
  exact ⟨h.1 rfl, h.2 (by decide)⟩

/-! ## The slave capture slot (src/unnamed/part_002)

The slot is the pair of globals `s_capture_ready` / `s_capture_in_progress`
(part_002:97-98), written only inside critical sections of
`s_capture_mutex` by `prepare_slave_capture` (part_002:687-755, run on the
single HTTP server task, so prepares are serialized) and by
`start_slave_capture` (part_002:576-601, run synchronously from the single
`udp_sync_task`, part_002:603-685).  Each mutex-protected section is one
atomic step of the transition system; the program counters record where
each of the two tasks stands between its critical sections. -/

/-- Program counter of the HTTP task inside `prepare_slave_capture`:
idle, or between the initial guard and the final commit (camera reconfig,
sensor tuning and warm-up frames happen here, outside the mutex). -/
inductive PrepPc where
  | idle
  | working
  deriving DecidableEq, Repr

/-- Program counter of the UDP sync task: idle, between sending `ACK` and
entering `start_slave_capture`, or running the capture. -/
inductive UdpPc where
  | idle
  | acked
  | running
  deriving DecidableEq, Repr

/-- The shared slot state plus the two tasks' program counters. -/
structure SlaveSlotState where
  ready : Bool
  in_progress : Bool
  prepPc : PrepPc
  udpPc : UdpPc
  deriving DecidableEq, Repr

/-- Boot state: slot cleared, both tasks idle. -/
def slaveInit : SlaveSlotState := ⟨false, false, .idle, .idle⟩

/-- Atomic steps of the two tasks over the capture slot.

* `prep_begin` / `prep_reject`: the guard section of
  `prepare_slave_capture` (part_002:695-702): proceed only when neither
  `ready` nor `in_progress`.
* `prep_commit`: the final section (part_002:744-753): store the request
  and set `ready := true`.  `prep_abort` is the mutex-timeout return.
* `ready_probe`: the `READY` branch of `udp_sync_task` reads the slot and
  replies; no write.
* `start_ack` / `start_nack`: the `START` branch checks
  `ready ∧ ¬in_progress` and answers `ACK` or `NO` (part_002:655-665).
* `launch_commit` / `launch_fail`: the re-check inside
  `start_slave_capture` (part_002:585-592); on success it flips the slot
  to `in_progress` and clears `ready` in the same critical section.
* `capture_finish`: clearing of `in_progress` after `run_slave_capture`
  (part_002:596-599); `capture_finish_timeout` is the path where the
  mutex take times out and the flag stays set. -/
inductive SlaveStep : SlaveSlotState → SlaveSlotState → Prop where
  | prep_begin (s : SlaveSlotState) :
      s.prepPc = .idle → s.ready = false → s.in_progress = false →
      SlaveStep s { s with prepPc := .working }
  | prep_reject (s : SlaveSlotState) :
      s.prepPc = .idle → (s.ready = true ∨ s.in_progress = true) →
      SlaveStep s s
  | prep_commit (s : SlaveSlotState) :
      s.prepPc = .working →
      SlaveStep s { s with prepPc := .idle, ready := true }
  | prep_abort (s : SlaveSlotState) :
      s.prepPc = .working →
      SlaveStep s { s with prepPc := .idle }
  | ready_probe (s : SlaveSlotState) :
      SlaveStep s s
  | start_ack (s : SlaveSlotState) :
      s.udpPc = .idle → s.ready = true → s.in_progress = false →
      SlaveStep s { s with udpPc := .acked }
  | start_nack (s : SlaveSlotState) :
      s.udpPc = .idle →
      SlaveStep s s
  | launch_commit (s : SlaveSlotState) :
      s.udpPc = .acked → s.ready = true → s.in_progress = false →
      SlaveStep s { s with udpPc := .running, ready := false,
                           in_progress := true }
  | launch_fail (s : SlaveSlotState) :
      s.udpPc = .acked →
      SlaveStep s { s with udpPc := .idle }
  | capture_finish (s : SlaveSlotState) :
      s.udpPc = .running →
      SlaveStep s { s with udpPc := .idle, in_progress := false }
  | capture_finish_timeout (s : SlaveSlotState) :
      s.udpPc = .running →
      SlaveStep s { s with udpPc := .idle }

/-- States reachable from boot by interleaving the two tasks. -/
inductive SlaveReachable : SlaveSlotState → Prop where
  | init : SlaveReachable slaveInit
  | step (s s' : SlaveSlotState) :
      SlaveReachable s → SlaveStep s s' → SlaveReachable s'

/-- The inductive invariant: the slot never has both flags set; while the
HTTP task is between the prepare guard and the prepare commit both flags
are clear; while the UDP task runs a capture the slot is `in_progress`
and not `ready`. -/
def slaveInv (s : SlaveSlotState) : Prop :=
  ¬(s.ready = true ∧ s.in_progress = true) ∧
  (s.prepPc = .working → s.ready = false ∧ s.in_progress = false) ∧
  (s.udpPc = .running → s.in_progress = true ∧ s.ready = false)

theorem slaveInv_reachable (s : SlaveSlotState) (h : SlaveReachable s) :
    slaveInv s := by
  induction h with
  | init => simp [slaveInv, slaveInit]
  | step s s' _ hstep ih =>
      obtain ⟨inv1, inv2, inv3⟩ := ih
      cases hstep <;>
        first
          | exact ⟨inv1, inv2, inv3⟩
          | (refine ⟨?_, ?_, ?_⟩ <;> simp_all)

/-- C2 (confirmed): in every state reachable by interleaving
`prepare_slave_capture`, the `START` path (`start_slave_capture`) and
concurrent `READY`/`START` probes, the capture slot never satisfies
`ready ∧ in_progress`. -/
theorem slot_exclusivity (s : SlaveSlotState) (h : SlaveReachable s) :
    ¬(s.ready = true ∧ s.in_progress = true) :=
  (slaveInv_reachable s h).1

/-- Witness for C2 at the boot state. -/
theorem slot_exclusivity_witness :
    ¬(slaveInit.ready = true ∧ slaveInit.in_progress = true) :=
  slot_exclusivity slaveInit SlaveReachable.init

/-! ## Decimal parsing (C `strtoll`, `sscanf %lld`, `atoi`)

The three C decimal readers used by the sync protocol and the HTTP
handlers share one accepting language: optional whitespace, an optional
sign, then digits; trailing garbage is ignored.  `strtoll`/`sscanf` fail
when no digit is consumed; `atoi` returns 0 then. -/

/-- The whitespace characters `isspace` accepts. -/
def isSpaceChar (c : Char) : Bool :=
  c = ' ' || c = '\t' || c = '\n' || c = '\r' || c = '\x0b' || c = '\x0c'

/-- Accumulate leading decimal digits, stopping at the first non-digit. -/
def digitsAcc : List Char → Int → Int
  | [], acc => acc
  | c :: cs, acc =>
      if c.isDigit then
        digitsAcc cs (acc * 10 + ((c.toNat : Int) - ('0'.toNat : Int)))
      else acc

/-- Decimal reader over the character buffer, shared by `strtoll` in
`parse_int64_payload` (part_002:561-575, app_main.c:1700-1713) and
`sscanf("%lld")` in the `START` branch (part_002:648-650): `none` when no
digit follows the optional whitespace and sign. -/
def parse_decimal_chars (buf : List Char) : Option Int :=
  let cs := buf.dropWhile isSpaceChar
  match cs with
  | '-' :: rest =>
      match rest with
      | c :: _ => if c.isDigit then some (-(digitsAcc rest 0)) else none
      | [] => none
  | '+' :: rest =>
      match rest with
      | c :: _ => if c.isDigit then some (digitsAcc rest 0) else none
      | [] => none
  | c :: _ => if c.isDigit then some (digitsAcc cs 0) else none
  | [] => none

/-- `parse_decimal` on a string value. -/
def parse_decimal (s : String) : Option Int := parse_decimal_chars s.data

/-- C `atoi`: the parsed value, or 0 when nothing parses. -/
def atoi (s : String) : Int := (parse_decimal s).getD 0

/-- `strncmp(buf, pre, |pre|) == 0`: `buf` begins with the characters of
`pre`. -/
def strncmp_matches : List Char → List Char → Bool
  | _, [] => true
  | [], _ :: _ => false
  | c :: cs, d :: ds => c = d && strncmp_matches cs ds

/-! ## SlaveSyncServer: `udp_sync_task` (part_002:603-685)

Handling of one received datagram, as the ordered list of externally
visible actions the task performs for it. -/

/-- Externally visible actions of the UDP sync task for one datagram. -/
inductive UdpAction where
  | sendReply (msg : String)
  | launchCapture (delay_us : Int)
  deriving DecidableEq, Repr

/-- The characters matched by `strncmp(rx_buf, "READY", 5)`. -/
def READY_CHARS : List Char := ['R', 'E', 'A', 'D', 'Y']

/-- The characters matched by `strncmp(rx_buf, "START", 5)`. -/
def START_CHARS : List Char := ['S', 'T', 'A', 'R', 'T']

/-- The per-datagram dispatch of `udp_sync_task` (part_002:631-684), given
the slot flags read under the mutex and the local clock:
`READY` answers `OK`/`NO`; `START <int>` with a non-negative delay and an
armed slot answers `ACK` and only then launches the capture, else `NO`;
a bare decimal echoes the local monotonic microseconds; anything else
answers `ERR`. -/
def udp_handle_datagram (ready in_progress : Bool) (now_us : Int)
    (rx : List Char) : List UdpAction :=
  if strncmp_matches rx READY_CHARS then
    [.sendReply (if ready && !in_progress then "OK" else "NO")]
  else if strncmp_matches rx START_CHARS then
    match parse_decimal_chars (rx.drop 5) with
    | none => [.sendReply "NO"]
    | some delay =>
        if delay < 0 then [.sendReply "NO"]
        else if ready && !in_progress then
          [.sendReply "ACK", .launchCapture delay]
        else [.sendReply "NO"]
  else
    match parse_decimal_chars rx with
    | some _ => [.sendReply (toString now_us)]
    | none => [.sendReply "ERR"]

/-- C5 (confirmed): whenever the handling of a datagram launches a capture,
the action list is exactly `ACK` reply followed by the launch — the reply
is transmitted before the capture launch begins, and no launch bypasses
the reply. -/
theorem ack_before_launch (ready in_progress : Bool) (now_us delay : Int)
    (rx : List Char)
    (h : UdpAction.launchCapture delay ∈
      udp_handle_datagram ready in_progress now_us rx) :
    udp_handle_datagram ready in_progress now_us rx =
      [UdpAction.sendReply "ACK", UdpAction.launchCapture delay] := by
  unfold udp_handle_datagram at h ⊢
  by_cases hr : strncmp_matches rx READY_CHARS
  · simp [hr] at h
  · by_cases hs : strncmp_matches rx START_CHARS
    · cases hd : parse_decimal_chars (rx.drop 5) with
      | none => simp [hr, hs, hd] at h
      | some d =>
          by_cases hneg : d < 0
          · simp [hr, hs, hd, hneg] at h
          · by_cases hc : ready && !in_progress
            · simp only [hr, hs, hd, hneg, hc] at h ⊢
              simp only [Bool.false_eq_true, if_false, if_true,
                List.mem_cons, List.mem_singleton, List.not_mem_nil,
                or_false, reduceCtorEq, false_or,
                UdpAction.launchCapture.injEq] at h
              subst h
              rfl
            · simp [hr, hs, hd, hneg, hc] at h
    · cases hd : parse_decimal_chars rx with
      | none => simp [hr, hs, hd] at h
      | some d => simp [hr, hs, hd] at h

/-- Witness for C5: a `START 100` datagram arriving with the slot armed. -/
theorem ack_before_launch_witness :
    udp_handle_datagram true false 0
        ['S', 'T', 'A', 'R', 'T', ' ', '1', '0', '0'] =
      [UdpAction.sendReply "ACK", UdpAction.launchCapture 100] :=
  ack_before_launch true false 0 100
    ['S', 'T', 'A', 'R', 'T', ' ', '1', '0', '0'] (by decide)

/-! ## Sensor parameter parsing and the sensor HTTP handler -/

/-- `atoi` over a character buffer. -/
def atoiChars (cs : List Char) : Int := (parse_decimal_chars cs).getD 0

/-- `tolower` on an ASCII character, as used by `strcasecmp`. -/
def toLowerChar (c : Char) : Char :=
  if 'A' ≤ c ∧ c ≤ 'Z' then Char.ofNat (c.toNat + 32) else c

/-- `strcasecmp(a, b) == 0`: equal up to ASCII case. -/
def strcasecmp_eq (a b : List Char) : Bool :=
  a.map toLowerChar = b.map toLowerChar

/-- The `pixformat_t` enumeration of the camera driver header
(rgb565 = 0, yuv422 = 1, grayscale = 3, jpeg = 4), used by the numeric
branch `(pixformat_t)atoi(value)` of `parse_pixformat`. -/
def pixformat_of_code (code : Int) : PixFormat :=
  if code = 0 then .rgb565
  else if code = 1 then .yuv422
  else if code = 3 then .grayscale
  else if code = 4 then .jpeg
  else .other code

/-- The `framesize_t` enumeration values named by `parse_framesize`
(qqvga = 1, qvga = 5, vga = 8, svga = 9, xga = 10, sxga = 12, uxga = 13). -/
def framesize_of_code (code : Int) : FrameSize :=
  if code = 1 then .qqvga
  else if code = 5 then .qvga
  else if code = 8 then .vga
  else if code = 9 then .svga
  else if code = 10 then .xga
  else if code = 12 then .sxga
  else if code = 13 then .uxga
  else .other code

/-- `DEFAULT_FRAME_SIZE` of the slave (part_002:57). -/
def SLAVE_DEFAULT_FRAME_SIZE : FrameSize := .svga

/-- `parse_pixformat` (part_002:166-180): a leading digit selects the
numeric cast, otherwise the name is matched case-insensitively, defaulting
to JPEG. -/
def parse_pixformat (value : List Char) : PixFormat :=
  match value with
  | [] => DEFAULT_PIXEL_FORMAT
  | c :: _ =>
      if c.isDigit then pixformat_of_code (atoiChars value)
      else if strcasecmp_eq value ['j', 'p', 'e', 'g'] then .jpeg
      else if strcasecmp_eq value ['r', 'g', 'b', '5', '6', '5'] then .rgb565
      else if strcasecmp_eq value
          ['g', 'r', 'a', 'y', 's', 'c', 'a', 'l', 'e'] then .grayscale
      else if strcasecmp_eq value ['y', 'u', 'v', '4', '2', '2'] then .yuv422
      else DEFAULT_PIXEL_FORMAT

/-- `parse_framesize` (part_002:148-164). -/
def parse_framesize (value : List Char) : FrameSize :=
  match value with
  | [] => SLAVE_DEFAULT_FRAME_SIZE
  | c :: _ =>
      if c.isDigit then framesize_of_code (atoiChars value)
      else if strcasecmp_eq value ['q', 'q', 'v', 'g', 'a'] then .qqvga
      else if strcasecmp_eq value ['q', 'v', 'g', 'a'] then .qvga
      else if strcasecmp_eq value ['v', 'g', 'a'] then .vga
      else if strcasecmp_eq value ['s', 'v', 'g', 'a'] then .svga
      else if strcasecmp_eq value ['x', 'g', 'a'] then .xga
      else if strcasecmp_eq value ['s', 'x', 'g', 'a'] then .sxga
      else if strcasecmp_eq value ['u', 'x', 'g', 'a'] then .uxga
      else SLAVE_DEFAULT_FRAME_SIZE

/-- Sensor operations issued by the form-encoded branch of
`sensor_handler` (part_002:536-555) for one `key=value` pair. -/
inductive SensorAction where
  | setFramesize (fs : FrameSize)
  | setPixformat (fmt : PixFormat)
  | setRegister (key : List Char) (value : Int)
  deriving DecidableEq, Repr

/-- Dispatch of one `key=value` pair in `sensor_handler`
(part_002:541-551): the `pixel_format` key is forwarded directly to the
sensor-register setter `sensor->set_pixformat`. -/
def sensor_handler_pair (key value : List Char) : SensorAction :=
  if key = ['f', 'r', 'a', 'm', 'e', 's', 'i', 'z', 'e'] then
    .setFramesize (parse_framesize value)
  else if key =
      ['p', 'i', 'x', 'e', 'l', '_', 'f', 'o', 'r', 'm', 'a', 't'] then
    .setPixformat (parse_pixformat value)
  else .setRegister key (atoiChars value)

/-- Effect of a sensor action on the camera: register setters update the
size or format in place; none of them deinitializes the pipeline. -/
def apply_sensor_action (cam : CameraState) (a : SensorAction) :
    CameraState :=
  match cam, a with
  | .initialized _ fmt, .setFramesize fs' => .initialized fs' fmt
  | .initialized fs _, .setPixformat fmt' => .initialized fs fmt'
  | c, _ => c

/-- The camera-state trace of handling one `key=value` pair. -/
def sensor_handler_trace (cam : CameraState) (key value : List Char) :
    List CameraState :=
  [cam, apply_sensor_action cam (sensor_handler_pair key value)]

/-- C3 (code bug): posting `pixel_format=rgb565` to the sensor endpoint
while the camera streams JPEG switches the pixel format through the
sensor-register setter alone — the camera trace goes directly from
`initialized svga jpeg` to `initialized svga rgb565` with no
`uninitialized` state in between, violating the format-switch discipline
that the repository's own documentation (slave.md, the NO-SOI fix)
requires. -/
theorem sensor_handler_switches_format_without_deinit :
    sensor_handler_trace (.initialized .svga .jpeg)
        ['p', 'i', 'x', 'e', 'l', '_', 'f', 'o', 'r', 'm', 'a', 't']
        ['r', 'g', 'b', '5', '6', '5'] =
      [CameraState.initialized .svga .jpeg,
       CameraState.initialized .svga .rgb565] ∧
    CameraState.uninitialized ∉
      sensor_handler_trace (.initialized .svga .jpeg)
        ['p', 'i', 'x', 'e', 'l', '_', 'f', 'o', 'r', 'm', 'a', 't']
        ['r', 'g', 'b', '5', '6', '5'] := by
  decide

/-! ## The master capture queue (app_main.c:2110-2126, 2189-2193)

`init_capture_task` creates the queue with `xQueueCreate(2, ...)`; the
single `capture_task` consumes one request at a time; `capture_handler`
enqueues and answers HTTP 409 `capture busy` when `xQueueSend` fails. -/

/-- `xQueueCreate(2, sizeof(capture_request_t *))` (app_main.c:2112). -/
def QUEUE_CAPACITY : Nat := 2

/-- Queue contents plus the request the capture task is running. -/
structure MasterQueueState where
  queued : List Nat
  running : Option Nat
  deriving DecidableEq, Repr

/-- Outcome of `capture_handler`'s enqueue attempt. -/
inductive EnqueueOutcome where
  | accepted (s : MasterQueueState)
  | rejected (status : Nat) (msg : String)
  deriving DecidableEq, Repr

/-- `xQueueSend` from `capture_handler` (app_main.c:2189-2193): a full
queue is answered with HTTP 409 and body `capture busy`. -/
def capture_enqueue (s : MasterQueueState) (r : Nat) : EnqueueOutcome :=
  if s.queued.length < QUEUE_CAPACITY then
    .accepted { s with queued := s.queued ++ [r] }
  else .rejected 409 "capture busy"

/-- The queue state after an enqueue attempt: unchanged on rejection. -/
def enqueue_result_state (s : MasterQueueState) (r : Nat) :
    MasterQueueState :=
  match capture_enqueue s r with
  | .accepted s' => s'
  | .rejected _ _ => s

/-- Steps of the producer (HTTP handlers) and the single consumer
(`capture_task`, app_main.c:2096-2108). -/
inductive QueueStep : MasterQueueState → MasterQueueState → Prop where
  | enqueue (s : MasterQueueState) (r : Nat) (s' : MasterQueueState) :
      capture_enqueue s r = .accepted s' → QueueStep s s'
  | dequeue (q : List Nat) (r : Nat) :
      QueueStep ⟨r :: q, none⟩ ⟨q, some r⟩
  | finish (q : List Nat) (r : Nat) :
      QueueStep ⟨q, some r⟩ ⟨q, none⟩

/-- Queue states reachable from boot (empty queue, idle task). -/
inductive QueueReachable : MasterQueueState → Prop where
  | init : QueueReachable ⟨[], none⟩
  | step (s s' : MasterQueueState) :
      QueueReachable s → QueueStep s s' → QueueReachable s'

/-- Captures pending at once: queued plus the one running. -/
def pendingCount (s : MasterQueueState) : Nat :=
  s.queued.length + (if s.running.isSome then 1 else 0)

theorem queue_len_bound (s : MasterQueueState) (h : QueueReachable s) :
    s.queued.length ≤ QUEUE_CAPACITY := by
  induction h with
  | init => simp
  | step s s' _ hstep ih =>
      cases hstep with
      | enqueue a r s2 henq =>
          unfold capture_enqueue at henq
          split at henq
          · cases henq
            simp only [List.length_append, List.length_singleton]
            omega
          · cases henq
      | dequeue q r =>
          have ih' : (r :: q).length ≤ QUEUE_CAPACITY := ih
          show q.length ≤ QUEUE_CAPACITY
          simp only [List.length_cons] at ih'
          omega
      | finish q r => exact ih

/-- C8 (confirmed): the capture queue has capacity 2, so in every
reachable state at most 3 captures are pending (2 queued plus 1 running),
and a request that finds the queue full is rejected with HTTP 409
`capture busy` while the queue state — including any in-flight capture —
is left unchanged. -/
theorem queue_bound_and_busy (s : MasterQueueState)
    (h : QueueReachable s) :
    pendingCount s ≤ QUEUE_CAPACITY + 1 ∧
    (∀ r : Nat, s.queued.length = QUEUE_CAPACITY →
      capture_enqueue s r = .rejected 409 "capture busy" ∧
      enqueue_result_state s r = s) := by
  have hlen := queue_len_bound s h
  constructor
  · unfold pendingCount
    cases s.running <;> simp <;> omega
  · intro r hfull
    have hnot : ¬ s.queued.length < QUEUE_CAPACITY := by omega
    constructor
    · unfold capture_enqueue
      rw [if_neg hnot]
    · unfold enqueue_result_state capture_enqueue
      rw [if_neg hnot]

/-- Witness for C8 at the reachable full state: two requests queued, one
running; a fourth request is rejected with `capture busy`. -/
theorem queue_bound_and_busy_witness :
    pendingCount ⟨[1, 2], some 0⟩ ≤ QUEUE_CAPACITY + 1 ∧
    capture_enqueue ⟨[1, 2], some 0⟩ 3 =
      .rejected 409 "capture busy" := by
  have h0 : QueueReachable ⟨[], none⟩ := QueueReachable.init
  have h1 : QueueReachable ⟨[0], none⟩ :=
    QueueReachable.step _ _ h0 (QueueStep.enqueue _ 0 _ rfl)
  have h2 : QueueReachable ⟨[], some 0⟩ :=
    QueueReachable.step _ _ h1 (QueueStep.dequeue [] 0)
  have h3 : QueueReachable ⟨[1], some 0⟩ :=
    QueueReachable.step _ _ h2 (QueueStep.enqueue _ 1 _ rfl)
  have h4 : QueueReachable ⟨[1, 2], some 0⟩ :=
    QueueReachable.step _ _ h3 (QueueStep.enqueue _ 2 _ rfl)
  have h := queue_bound_and_busy ⟨[1, 2], some 0⟩ h4
  exact ⟨h.1, (h.2 3 (by decide)).1⟩

/-! ## frame_count parsing at the HTTP capture endpoints -/

/-- The `frame_count` logic shared verbatim by the master's
`capture_handler` (app_main.c:2146-2151) and the slave's
`capture_handler` (part_002:875-880): `atoi` of the parameter when
present, else 0; values `≤ 0` are replaced by 1. -/
def frame_count_raw (v : Option (List Char)) : Int :=
  match v with
  | none => 0
  | some s => atoiChars s

/-- The value stored into the request after the `<= 0` fix-up. -/
def parse_frame_count (v : Option (List Char)) : Int :=
  if frame_count_raw v ≤ 0 then 1 else frame_count_raw v

/-- The only frame-count-dependent rejection guard on either endpoint:
`prepare_slave_capture` returns `ESP_ERR_INVALID_ARG` for
`frame_count <= 0` (part_002:689-691), which the slave handler maps to an
HTTP 409. The master handler has no frame-count-dependent reject branch. -/
def prepare_frame_count_rejected (frame_count : Int) : Bool :=
  frame_count ≤ 0

/-- C9 (confirmed): an absent `frame_count`, a non-numeric one (`atoi`
yields 0), or one parsing `≤ 0` all produce frame count exactly 1; the
accepted count is always `≥ 1`, and the one rejection guard that inspects
the frame count therefore never fires on a handler-produced value. -/
theorem frame_count_defaulting (s : List Char) (v : Option (List Char)) :
    parse_frame_count none = 1 ∧
    (parse_decimal_chars s = none → parse_frame_count (some s) = 1) ∧
    (atoiChars s ≤ 0 → parse_frame_count (some s) = 1) ∧
    1 ≤ parse_frame_count v ∧
    prepare_frame_count_rejected (parse_frame_count v) = false := by
  have hge : ∀ w, 1 ≤ parse_frame_count w := by
    intro w
    unfold parse_frame_count
    split <;> omega
  refine ⟨rfl, fun h => ?_, fun h => ?_, hge v, ?_⟩
  · simp [parse_frame_count, frame_count_raw, atoiChars, h]
  · simp [parse_frame_count, frame_count_raw, h]
  · have h1 := hge v
    unfold prepare_frame_count_rejected
    simp only [decide_eq_false_iff_not]
    omega

/-- Witness for C9 on the non-numeric value `abc` and on the explicit
value `-3`. -/
theorem frame_count_defaulting_witness :
    parse_frame_count (some ['a', 'b', 'c']) = 1 ∧
    parse_frame_count (some ['-', '3']) = 1 := by
  constructor
  · exact (frame_count_defaulting ['a', 'b', 'c']
      (some ['a', 'b', 'c'])).2.1 (by decide)
  · exact (frame_count_defaulting ['-', '3']
      (some ['-', '3'])).2.2.1 (by decide)

/-! ## The master handler's wait for capture completion -/

/-- A FreeRTOS block time: a finite tick count or `portMAX_DELAY`. -/
inductive WaitTicks where
  | ticks (n : Nat)
  | forever
  deriving DecidableEq, Repr

/-- Result of a semaphore take: `pdTRUE`, `pdFALSE` after a finite
timeout, or no return at all (the caller stays blocked). -/
inductive TakeResult where
  | taken
  | timedOut
  | neverReturns
  deriving DecidableEq, Repr

/-- `xSemaphoreTake` semantics over the tick at which the semaphore is
given (if ever): with `portMAX_DELAY` the call blocks until the give and
can only return `pdTRUE`. -/
def xSemaphoreTake (timeout : WaitTicks) (give_tick : Option Nat) :
    TakeResult :=
  match give_tick, timeout with
  | some _, .forever => .taken
  | some t, .ticks n => if t ≤ n then .taken else .timedOut
  | none, .forever => .neverReturns
  | none, .ticks _ => .timedOut

/-- The handler's wait `xSemaphoreTake(cap->done, portMAX_DELAY)`
(app_main.c:2196); `capture_task` gives `req->done` after every request
it dequeues (app_main.c:2102-2105). -/
def capture_handler_wait (give_tick : Option Nat) : TakeResult :=
  xSemaphoreTake .forever give_tick

/-- C10 (confirmed): the handler waits with an unbounded timeout, so the
wait returns `pdTRUE` whenever the capture task completes the request,
and the `capture timeout` branch — reached only on `pdFALSE` — is
unreachable. -/
theorem capture_timeout_unreachable (give_tick : Option Nat) (t : Nat) :
    capture_handler_wait (some t) = TakeResult.taken ∧
    capture_handler_wait give_tick ≠ TakeResult.timedOut := by
  constructor
  · rfl
  · cases give_tick <;> simp [capture_handler_wait, xSemaphoreTake]

end DualCam
